import Mathlib

/-!
Shallow embedding of `ironfish-cli/src/commands/service/snapshot.ts`
(`CreateSnapshot`): a snapshot export pipeline that streams block records
from a node, writes one file per block, archives the block directory with
an external `tar` process, stream-hashes the archive with SHA-256, and
optionally uploads the archive and a JSON manifest to a bucket with an
external `curl` process.

The embedding models one invocation of `CreateSnapshot.start` as a pure
function from an environment (the stream contents, the behaviour of the
spawned external processes, the clock readings and the filesystem facts
the run observes) to a trace recording the files written, the upload
invocations made, the manifest produced and the overall job result.
The SHA-256 function itself and the ISO-8601 date renderer are library
calls (`crypto`, `Date.prototype.toISOString`); the run is parameterised
over them, since no claim depends on their internals.
-/

/-- A file path, modelled as its list of components.
`this.sdk.fileSystem.join` / `path.join` append a component;
`path.basename` takes the last component. -/
abbrev FsPath := List String

/-- `fileSystem.join dir name` / `path.join(dir, name)`. -/
def FsPath.joinFile (p : FsPath) (s : String) : FsPath := p ++ [s]

/-- `path.basename`: the last component of the path. -/
def FsPath.base (p : FsPath) : String := (p.getLast?).getD ""

/-- One message of the snapshot chain stream
(`snapshotChainStream` responses).  The first message carries the bounds
`{start, stop}`; later messages carry `{seq, buffer}`.  All wire fields
are optional; `seq = 0` encodes an absent-or-zero sequence, which are
indistinguishable in the source (`result.seq` is used only in the falsy
test `result.buffer && result.seq` and in `result.seq || 0`). -/
structure StreamMessage where
  start : Option Int := none
  stop : Option Int := none
  seq : Nat := 0
  buffer : Option (List Nat) := none
  deriving DecidableEq, Repr

/-- Modelled from the spec: how the RPC stream's data phase ends.  The
stream abstraction (`RpcResponse.contentStream` in `@ironfish/sdk`) is
repository code not under `src/`; per the spec (§4.1), a connection
closed before the stream completes raises an error, which the `for
await` loop in `start` propagates. -/
inductive StreamEnd where
  /-- The source finished the stream normally. -/
  | completed
  /-- The connection closed early; iterating the stream raises. -/
  | connectionClosed
  deriving DecidableEq, Repr

/-- Outcome of one `spawn`ed external process as observed through the
promise in `zipDir` / `uploadToBucket`: the promise resolves with the
exit code (`process.on('exit'/'close', resolve)`) or rejects on a
spawn-level error (`process.on('error', reject)`). -/
inductive SpawnResult where
  /-- The process spawned and exited; the promise resolves with `code`. -/
  | exited (code : Int)
  /-- Spawn-level failure; the promise rejects and the `await` throws. -/
  | errored
  deriving DecidableEq, Repr

/-- The pipeline stage at which a run failed. -/
inductive Stage where
  | stream
  | archive
  | archiveUpload
  | manifestUpload
  deriving DecidableEq, Repr

/-- Overall result of one `CreateSnapshot.start` invocation. -/
inductive JobResult where
  | success
  | failed (s : Stage)
  deriving DecidableEq, Repr

/-- The manifest object serialised at `manifest.json`
(`JSON.stringify({block_height, checksum, file_name, file_size,
timestamp})`).  `block_height` is `stop` from the bounds message, hence
optional on the wire. -/
structure Manifest where
  block_height : Option Int
  checksum : String
  file_name : String
  file_size : Nat
  timestamp : Nat
  deriving DecidableEq, Repr

/-- One invocation of `uploadToBucket dest host contentType`, i.e. the
`curl` argument list `-X PUT -T dest -H Host -H Date -H Content-Type
-H x-amz-acl https://host/basename(dest)`. -/
structure UploadRequest where
  method : String
  uploadFile : FsPath
  headers : List (String × String)
  url : String
  deriving DecidableEq, Repr

/-- The request `uploadToBucket` constructs: an HTTP PUT of `dest` to
`https://host/basename(dest)` with headers `Host`, `Date` (the current
time rendered in ISO-8601 by `new Date().toISOString()`, passed here as
the already-rendered string), `Content-Type`, and
`x-amz-acl: bucket-owner-full-control`. -/
def uploadToBucketRequest (dest : FsPath) (host contentType isoDate : String) :
    UploadRequest :=
  let file := dest.base
  let acl := "bucket-owner-full-control"
  { method := "PUT",
    uploadFile := dest,
    headers :=
      [("Host", host), ("Date", isoDate), ("Content-Type", contentType),
       ("x-amz-acl", acl)],
    url := "https://" ++ host ++ "/" ++ file }

/-- Modelled from the spec: JS truthiness of the optional `buffer` field.
The wire type of `buffer` is fixed by SDK code not under `src/`; per the
spec (§3, §8) a message with an absent *or empty* payload is skippable
and must not produce a file, so the source's truthy test on
`result.buffer` holds exactly of a present, non-empty payload. -/
def bufferTruthy : Option (List Nat) → Bool
  | none => false
  | some b => !b.isEmpty

/-- The lowercase hex digit for `n < 16`, as produced by Node's
`Buffer.prototype.toString('hex')`. -/
def hexDigit (n : Nat) : Char :=
  if n < 10 then Char.ofNat (48 + n) else Char.ofNat (87 + n)

/-- One byte rendered as two lowercase hex digits. -/
def byteToHex (b : Nat) : String :=
  String.mk [hexDigit (b / 16 % 16), hexDigit (b % 16)]

/-- `Buffer.prototype.toString('hex')`: lowercase hex of a byte list. -/
def toHexLower (bs : List Nat) : String :=
  String.join (bs.map byteToHex)

/-- The body of the `for await` write loop (snapshot.ts lines 83-89):
for each stream message, if `result.buffer && result.seq` is truthy,
write `Buffer.from(result.buffer)` to `blocksDir/<seq>` and report
progress with `result.seq`.  Returns the list of `(seq, bytes)` writes
in order and the list of progress updates in order. -/
def writeLoop : List StreamMessage → List (Nat × List Nat) × List Nat
  | [] => ([], [])
  | m :: ms =>
    let rest := writeLoop ms
    if bufferTruthy m.buffer && (m.seq != 0) then
      ((m.seq, m.buffer.getD []) :: rest.1, m.seq :: rest.2)
    else
      rest

/-- The final contents of the blocks directory at sequence name `s`,
given the ordered list of `writeFile` calls: `writeFile` is a full
overwrite, so the last write to a name wins. -/
def dirContents : List (Nat × List Nat) → Nat → Option (List Nat)
  | [], _ => none
  | w :: ws, s =>
    match dirContents ws s with
    | some b => some b
    | none => if w.1 = s then some w.2 else none

/-- Everything outside the process that one run observes: the stream
(a single ordered channel whose first message carries the bounds — per
the spec §4.1 `contentStream` views of one response share the one
underlying channel, so the `AsyncUtils.first` call consumes the head and
the write loop consumes the remainder), how the stream's data phase
ends, the export directory, the resolved bucket string (empty = unset),
the `Date.now()` reading taken between streaming and archiving, the
outcomes of the three spawned processes, the archive bytes `tar`
produced at the snapshot path, the chunk sequence `createReadStream`
yields for it, and the two `new Date().toISOString()` readings inside
the upload calls. -/
structure Env where
  stream : List StreamMessage
  streamEnd : StreamEnd
  exportDir : FsPath
  bucket : String
  now : Nat
  tar : SpawnResult
  tarOutput : List Nat
  readChunks : List (List Nat)
  isoArchiveUpload : String
  isoManifestUpload : String
  curlArchive : SpawnResult
  curlManifest : SpawnResult
  deriving Repr

/-- Observable trace of one run of `CreateSnapshot.start`. -/
structure Trace where
  /-- `(seq, bytes)` of each `writeFile` into the blocks directory, in order. -/
  blockWrites : List (Nat × List Nat)
  /-- Arguments of the `progress.update` calls, in order. -/
  progressUpdates : List Nat
  /-- The stream messages the write loop iterated over. -/
  consumed : List StreamMessage
  /-- `start` destructured from the first stream message. -/
  rangeStart : Option (Option Int)
  /-- `stop` destructured from the first stream message. -/
  rangeEnd : Option (Option Int)
  /-- Whether `zipDir` (the `tar` spawn) was reached. -/
  tarInvoked : Bool
  /-- The hex checksum, once the digest step completed. -/
  digest : Option String
  /-- The `uploadToBucket` invocations made, in order. -/
  uploads : List UploadRequest
  /-- The manifest written to `manifest.json`, if any. -/
  manifestFile : Option Manifest
  result : JobResult
  deriving DecidableEq, Repr

/-- One invocation of `CreateSnapshot.start` (snapshot.ts lines 44-142),
parameterised over the SHA-256 function `hash` (`crypto.createHash`,
with `hasher.update` folded over the read chunks modelled as hashing
their concatenation) and the ISO renderer is already folded into the
`Env`'s iso strings.

Control flow mirrors the source:
* read the bounds message with `AsyncUtils.first` (an empty stream makes
  `first` reject — modelled from the spec, `AsyncUtils` is SDK code);
* run the write loop over the remainder of the same stream; a
  connection-closed end raises out of the loop (see `StreamEnd`);
* capture `timestamp = Date.now()`, build the snapshot file name;
* `await this.zipDir(...)`: the promise's resolved exit code is
  discarded by the caller; only a rejection (spawn error) throws;
* `stat` the archive for its size, stream-hash it for the checksum;
* if `bucket` is truthy (non-empty): `await uploadToBucket(archive)`
  (again only a rejection throws), then write `manifest.json` and
  `await uploadToBucket(manifest)`. -/
def startRun (hash : List Nat → List Nat) (env : Env) : Trace :=
  match env.stream with
  | [] =>
    { blockWrites := [], progressUpdates := [], consumed := [],
      rangeStart := none, rangeEnd := none, tarInvoked := false,
      digest := none, uploads := [], manifestFile := none,
      result := .failed .stream }
  | first :: rest =>
    let wp := writeLoop rest
    let base : Trace :=
      { blockWrites := wp.1, progressUpdates := wp.2, consumed := rest,
        rangeStart := some first.start, rangeEnd := some first.stop,
        tarInvoked := false, digest := none, uploads := [],
        manifestFile := none, result := .failed .stream }
    match env.streamEnd with
    | .connectionClosed => base
    | .completed =>
      let timestamp := env.now
      let snapshotFileName :=
        "ironfish_snapshot_" ++ toString timestamp ++ ".tar.gz"
      let snapshotPath := env.exportDir.joinFile snapshotFileName
      match env.tar with
      | .errored => { base with tarInvoked := true, result := .failed .archive }
      | .exited _ =>
        let fileSize := env.tarOutput.length
        let checksum := toHexLower (hash env.readChunks.flatten)
        if env.bucket != "" then
          let blockHeight := first.stop
          let archiveReq :=
            uploadToBucketRequest snapshotPath env.bucket
              "application/x-compressed-tar" env.isoArchiveUpload
          match env.curlArchive with
          | .errored =>
            { base with
                tarInvoked := true
                digest := some checksum
                uploads := [archiveReq]
                result := .failed .archiveUpload }
          | .exited _ =>
            let manifest : Manifest :=
              { block_height := blockHeight, checksum := checksum,
                file_name := snapshotFileName, file_size := fileSize,
                timestamp := timestamp }
            let manifestPath := env.exportDir.joinFile "manifest.json"
            let manifestReq :=
              uploadToBucketRequest manifestPath env.bucket
                "application/json" env.isoManifestUpload
            match env.curlManifest with
            | .errored =>
              { base with
                  tarInvoked := true
                  digest := some checksum
                  uploads := [archiveReq, manifestReq]
                  manifestFile := some manifest
                  result := .failed .manifestUpload }
            | .exited _ =>
              { base with
                  tarInvoked := true
                  digest := some checksum
                  uploads := [archiveReq, manifestReq]
                  manifestFile := some manifest
                  result := .success }
        else
          { base with
              tarInvoked := true
              digest := some checksum
              result := .success }

example :
    (writeLoop [{ seq := 3, buffer := some [1, 2] }, { seq := 0, buffer := some [9] },
      { seq := 4, buffer := none }, { seq := 5, buffer := some [] },
      { seq := 6, buffer := some [7] }]).1 = [(3, [1, 2]), (6, [7])] := by decide

example :
    (startRun (fun l => l)
      { stream := [{ start := some 10, stop := some 12 },
          { seq := 10, buffer := some [65] }, { seq := 11, buffer := some [66] },
          { seq := 12, buffer := some [67] }]
        streamEnd := .completed, exportDir := ["tmp"], bucket := ""
        now := 5, tar := .exited 0, tarOutput := [1, 2, 3]
        readChunks := [[1], [2, 3]], isoArchiveUpload := "", isoManifestUpload := ""
        curlArchive := .exited 0, curlManifest := .exited 0 }).result
      = .success := by decide

/-! ### Helper lemmas about the run -/

theorem writeLoop_progress_eq (msgs : List StreamMessage) :
    (writeLoop msgs).2 = (writeLoop msgs).1.map Prod.fst := by
  induction msgs with
  | nil => rfl
  | cons m ms ih =>
    simp only [writeLoop]
    split <;> simp [ih]

/-- For a single message, the write-loop guard produces the pair `(s, b)`
iff the message carries sequence `s ≠ 0` and payload `some b` with
`b ≠ []`. -/
theorem guard_eq_some (m : StreamMessage) (s : Nat) (b : List Nat) :
    (if bufferTruthy m.buffer && (m.seq != 0) then
        some (m.seq, m.buffer.getD []) else none) = some (s, b) ↔
      m.seq = s ∧ m.buffer = some b ∧ b ≠ [] ∧ s ≠ 0 := by
  constructor
  · intro h
    by_cases hg : (bufferTruthy m.buffer && (m.seq != 0)) = true
    · rw [if_pos hg] at h
      rw [Bool.and_eq_true] at hg
      obtain ⟨hb, hs⟩ := hg
      rcases hbuf : m.buffer with _ | c
      · rw [hbuf] at hb
        simp [bufferTruthy] at hb
      · have hc : c ≠ [] := by
          rw [hbuf] at hb
          simpa [bufferTruthy] using hb
        rw [hbuf] at h
        simp only [Option.getD_some, Option.some.injEq, Prod.mk.injEq] at h
        obtain ⟨h1, h2⟩ := h
        have hs' : m.seq ≠ 0 := by simpa using hs
        refine ⟨h1, ?_, h2 ▸ hc, h1 ▸ hs'⟩
        exact congrArg some h2
    · rw [if_neg hg] at h
      exact absurd h (by simp)
  · rintro ⟨h1, h2, h3, h4⟩
    have hg : (bufferTruthy m.buffer && (m.seq != 0)) = true := by
      rw [h2]
      simp [bufferTruthy, h3, h1, h4]
    rw [if_pos hg, h2]
    simp [h1]

theorem writeLoop_fst (msgs : List StreamMessage) :
    (writeLoop msgs).1 = msgs.filterMap (fun m =>
      if bufferTruthy m.buffer && (m.seq != 0) then
        some (m.seq, m.buffer.getD []) else none) := by
  induction msgs with
  | nil => rfl
  | cons m ms ih =>
    simp only [writeLoop, List.filterMap_cons]
    by_cases hg : (bufferTruthy m.buffer && (m.seq != 0)) = true
    · simp [hg, ih]
    · simp [hg, ih]

theorem writeLoop_mem (msgs : List StreamMessage) (s : Nat) (b : List Nat) :
    (s, b) ∈ (writeLoop msgs).1 ↔
      ∃ m ∈ msgs, m.seq = s ∧ m.buffer = some b ∧ b ≠ [] ∧ s ≠ 0 := by
  rw [writeLoop_fst, List.mem_filterMap]
  constructor
  · rintro ⟨m, hm, h⟩
    exact ⟨m, hm, (guard_eq_some m s b).mp h⟩
  · rintro ⟨m, hm, h⟩
    exact ⟨m, hm, (guard_eq_some m s b).mpr h⟩

theorem dirContents_ne_none (ws : List (Nat × List Nat)) (s : Nat) :
    dirContents ws s ≠ none ↔ ∃ b, (s, b) ∈ ws := by
  induction ws with
  | nil => simp [dirContents]
  | cons w ws ih =>
    constructor
    · intro h
      simp only [dirContents] at h
      cases hd : dirContents ws s with
      | some b =>
        obtain ⟨b', hb'⟩ := ih.mp (by simp [hd])
        exact ⟨b', List.mem_cons_of_mem _ hb'⟩
      | none =>
        rw [hd] at h
        by_cases hw : w.1 = s
        · refine ⟨w.2, ?_⟩
          have hww : (s, w.2) = w := by rw [← hw]
          rw [hww]
          exact List.mem_cons_self _ _
        · rw [if_neg hw] at h
          exact absurd rfl h
    · rintro ⟨b, hb⟩
      simp only [dirContents]
      rcases List.mem_cons.mp hb with hb | hb
      · have hw : w.1 = s := by rw [← hb]
        cases hd : dirContents ws s with
        | some c => simp [hd]
        | none => simp [hd, hw]
      · cases hd : dirContents ws s with
        | some c => simp [hd]
        | none => exact absurd hd (ih.mpr ⟨b, hb⟩)

theorem base_joinFile (p : FsPath) (s : String) : (p.joinFile s).base = s := by
  simp [FsPath.joinFile, FsPath.base]

/-- Whatever happens downstream of the write loop, the trace's stream-side
fields are fixed by the stream alone: the writes and progress updates come
from the write loop over the messages after the bounds message, the loop
consumed exactly those messages, and the bounds are destructured from the
first message. -/
theorem startRun_base (hash : List Nat → List Nat) (env : Env)
    (first : StreamMessage) (rest : List StreamMessage)
    (hs : env.stream = first :: rest) :
    (startRun hash env).blockWrites = (writeLoop rest).1 ∧
    (startRun hash env).progressUpdates = (writeLoop rest).2 ∧
    (startRun hash env).consumed = rest ∧
    (startRun hash env).rangeStart = some first.start ∧
    (startRun hash env).rangeEnd = some first.stop := by
  simp only [startRun, hs]
  cases env.streamEnd <;> cases env.tar <;> cases env.curlArchive <;>
    cases env.curlManifest <;>
    by_cases hb : (env.bucket != "") = true <;>
    simp [hb]

/-- Whenever a run produces a manifest, the manifest is exactly the object
built at snapshot.ts lines 128-134: `block_height` is `stop` from the
bounds message, `checksum` the hex digest of the concatenated read chunks,
`file_name` the snapshot file name built from the captured timestamp,
`file_size` the `stat` size of the archive `tar` produced, and
`timestamp` the captured `Date.now()`. -/
theorem startRun_manifestFile_eq (hash : List Nat → List Nat) (env : Env)
    (first : StreamMessage) (rest : List StreamMessage) (m : Manifest)
    (hs : env.stream = first :: rest)
    (hm : (startRun hash env).manifestFile = some m) :
    m = { block_height := first.stop
          checksum := toHexLower (hash env.readChunks.flatten)
          file_name := "ironfish_snapshot_" ++ toString env.now ++ ".tar.gz"
          file_size := env.tarOutput.length
          timestamp := env.now } := by
  obtain ⟨bh, ck, fn, fs, ts⟩ := m
  cases hse : env.streamEnd <;> cases htar : env.tar <;>
    cases hca : env.curlArchive <;> cases hcm : env.curlManifest <;>
    by_cases hb : env.bucket = "" <;>
    simp [startRun, hs, hse, htar, hca, hcm, hb, Manifest.mk.injEq] at hm <;>
    (obtain ⟨h1, h2, h3, h4, h5⟩ := hm
     subst h1
     subst h2
     subst h3
     subst h4
     subst h5
     rfl)

/-! ### Claim theorems -/

/-- C3: if the stream's data phase ends by the connection closing before
any record with sequence `rangeEnd` (`stop`) was observed, the job fails
at the stream stage and never proceeds to archiving: `tar` is not
invoked, no digest is computed and no upload is made. -/
theorem c3_early_close_fails (hash : List Nat → List Nat) (env : Env)
    (first : StreamMessage) (rest : List StreamMessage)
    (hs : env.stream = first :: rest)
    (hclosed : env.streamEnd = .connectionClosed)
    (hnoend : ∀ m ∈ rest, some (m.seq : Int) ≠ first.stop) :
    (startRun hash env).result = .failed .stream ∧
    (startRun hash env).tarInvoked = false ∧
    (startRun hash env).digest = none ∧
    (startRun hash env).uploads = [] := by
  simp [startRun, hs, hclosed]

/-- C4 (amended): after a successful run the blocks directory holds a file
named `s` exactly when some delivered record carried sequence `s ≠ 0` and
a non-empty payload — with no filtering against the stream's bounds
`[rangeStart, rangeEnd]`, which the write loop never consults. -/
theorem c4_no_bounds_filter (hash : List Nat → List Nat) (env : Env)
    (first : StreamMessage) (rest : List StreamMessage) (s : Nat)
    (hs : env.stream = first :: rest)
    (hsucc : (startRun hash env).result = .success) :
    (dirContents (startRun hash env).blockWrites s ≠ none ↔
      ∃ m ∈ rest, m.seq = s ∧ (∃ b, m.buffer = some b ∧ b ≠ []) ∧ s ≠ 0) := by
  obtain ⟨hbw, -, -, -, -⟩ := startRun_base hash env first rest hs
  rw [hbw, dirContents_ne_none]
  constructor
  · rintro ⟨b, hb⟩
    obtain ⟨m, hm, h1, h2, h3, h4⟩ := (writeLoop_mem rest s b).mp hb
    exact ⟨m, hm, h1, ⟨b, h2, h3⟩, h4⟩
  · rintro ⟨m, hm, h1, ⟨b, h2, h3⟩, h4⟩
    exact ⟨b, (writeLoop_mem rest s b).mpr ⟨m, hm, h1, h2, h3, h4⟩⟩

/-- C5: during a run, a file `blocksDir/<s>` with payload bytes `b` is
written iff some delivered record carries both a non-empty payload
`some b` and a nonzero sequence `s`; a record with sequence `0` or an
absent/empty payload is skipped without error, and the progress updates
are exactly the sequence numbers of the records actually written, so a
skipped record advances no progress. -/
theorem c5_write_guard (hash : List Nat → List Nat) (env : Env)
    (first : StreamMessage) (rest : List StreamMessage) (s : Nat)
    (b : List Nat) (hs : env.stream = first :: rest) :
    ((s, b) ∈ (startRun hash env).blockWrites ↔
      ∃ m ∈ rest, m.seq = s ∧ m.buffer = some b ∧ b ≠ [] ∧ s ≠ 0) ∧
    (startRun hash env).progressUpdates =
      (startRun hash env).blockWrites.map Prod.fst := by
  obtain ⟨hbw, hpu, -, -, -⟩ := startRun_base hash env first rest hs
  refine ⟨?_, ?_⟩
  · rw [hbw]
    exact writeLoop_mem rest s b
  · rw [hbw, hpu]
    exact writeLoop_progress_eq rest

/-- C6: the run reads the bounds from the head of the one stream exactly
once, and the write loop then processes exactly the remaining messages of
that same stream — the bounds message is not re-delivered to the loop and
no second stream is opened (the run consumes the single `Env.stream`
channel). -/
theorem c6_single_stream (hash : List Nat → List Nat) (env : Env)
    (first : StreamMessage) (rest : List StreamMessage)
    (hs : env.stream = first :: rest) :
    (startRun hash env).consumed = rest ∧
    (startRun hash env).rangeStart = some first.start ∧
    (startRun hash env).rangeEnd = some first.stop := by
  obtain ⟨-, -, hc, hrs, hre⟩ := startRun_base hash env first rest hs
  exact ⟨hc, hrs, hre⟩

/-- C7: whenever a manifest is produced, `block_height` is the stream's
`stop` bound, `file_size` is the byte length of the archive file that
`tar` produced (as `stat` reports it), `checksum` is the lowercase hex
SHA-256 digest of the archive file's bytes, and `file_name` is the base
name of the archive path. -/
theorem c7_manifest_fields (hash : List Nat → List Nat) (env : Env)
    (first : StreamMessage) (rest : List StreamMessage) (m : Manifest)
    (hs : env.stream = first :: rest)
    (hchunks : env.readChunks.flatten = env.tarOutput)
    (hm : (startRun hash env).manifestFile = some m) :
    m.block_height = first.stop ∧
    m.file_size = env.tarOutput.length ∧
    m.checksum = toHexLower (hash env.tarOutput) ∧
    m.file_name = (env.exportDir.joinFile
      ("ironfish_snapshot_" ++ toString env.now ++ ".tar.gz")).base := by
  have := startRun_manifestFile_eq hash env first rest m hs hm
  subst this
  refine ⟨rfl, rfl, by rw [hchunks], ?_⟩
  rw [base_joinFile]

/-- C9: with no bucket configured (empty bucket string), a run whose
stream completed and whose archive step completed makes no upload
invocation, writes no manifest, and still reports success with the
digest computed. -/
theorem c9_no_bucket (hash : List Nat → List Nat) (env : Env)
    (first : StreamMessage) (rest : List StreamMessage) (c : Int)
    (hs : env.stream = first :: rest)
    (hend : env.streamEnd = .completed)
    (htar : env.tar = .exited c)
    (hb : env.bucket = "") :
    (startRun hash env).uploads = [] ∧
    (startRun hash env).manifestFile = none ∧
    (startRun hash env).digest ≠ none ∧
    (startRun hash env).result = .success := by
  simp [startRun, hs, hend, htar, hb]

/-- C10: whenever a manifest is produced, its `timestamp` field is the
single `Date.now()` capture taken after streaming and before archiving,
and that same value is the epoch-milliseconds component embedded in the
archive file's name `ironfish_snapshot_<ms>.tar.gz` recorded in
`file_name`. -/
theorem c10_timestamp_in_name (hash : List Nat → List Nat) (env : Env)
    (first : StreamMessage) (rest : List StreamMessage) (m : Manifest)
    (hs : env.stream = first :: rest)
    (hm : (startRun hash env).manifestFile = some m) :
    m.timestamp = env.now ∧
    m.file_name = "ironfish_snapshot_" ++ toString m.timestamp ++ ".tar.gz" := by
  have := startRun_manifestFile_eq hash env first rest m hs hm
  subst this
  exact ⟨rfl, rfl⟩

/-- C1 (amended): with a bucket configured, the manifest step is gated
only on the archive upload's *promise settling kind*, not on its exit
code: a spawn-level error means no manifest is written, only the one
archive upload is attempted, and the job fails at the archive-upload
stage; but when the archive upload process exits — with any code,
success or not — the manifest is written and its upload attempted
regardless, the exit code never being examined. -/
theorem c1_manifest_gating (hash : List Nat → List Nat) (env : Env)
    (first : StreamMessage) (rest : List StreamMessage) (c : Int)
    (hs : env.stream = first :: rest)
    (hend : env.streamEnd = .completed)
    (htar : env.tar = .exited c)
    (hb : env.bucket ≠ "") :
    ((startRun hash env).manifestFile = none ↔ env.curlArchive = .errored) ∧
    ((startRun hash env).uploads.length = 1 ↔ env.curlArchive = .errored) ∧
    ((startRun hash env).uploads.length = 2 ↔ env.curlArchive ≠ .errored) ∧
    (env.curlArchive = .errored →
      (startRun hash env).result = .failed .archiveUpload) := by
  cases hca : env.curlArchive <;> cases hcm : env.curlManifest <;>
    simp [startRun, hs, hend, htar, hca, hcm, hb]

/-- C2 (amended): the archive step fails the whole job only on a
spawn-level error of the compression process — then no digest is
computed, no upload occurs and the job fails at the archive stage; a
nonzero or non-success *exit status*, however, is ignored (the resolved
exit code is discarded), and the run proceeds to the digest and upload
steps exactly as on a zero exit. -/
theorem c2_spawn_error_gating (hash : List Nat → List Nat) (env : Env)
    (first : StreamMessage) (rest : List StreamMessage)
    (hs : env.stream = first :: rest)
    (hend : env.streamEnd = .completed) :
    ((startRun hash env).digest = none ↔ env.tar = .errored) ∧
    (env.tar = .errored →
      (startRun hash env).uploads = [] ∧
      (startRun hash env).manifestFile = none ∧
      (startRun hash env).result = .failed .archive) := by
  cases htar : env.tar <;> cases hca : env.curlArchive <;>
    cases hcm : env.curlManifest <;> by_cases hb : env.bucket = "" <;>
    simp [startRun, hs, hend, htar, hca, hcm, hb]

/-- Any upload invocation a run makes is one of the two `uploadToBucket`
calls of `start`: the archive upload or the manifest upload. -/
theorem startRun_uploads_sub (hash : List Nat → List Nat) (env : Env)
    (r : UploadRequest) (hr : r ∈ (startRun hash env).uploads) :
    r = uploadToBucketRequest
          (env.exportDir.joinFile
            ("ironfish_snapshot_" ++ toString env.now ++ ".tar.gz"))
          env.bucket "application/x-compressed-tar" env.isoArchiveUpload ∨
    r = uploadToBucketRequest (env.exportDir.joinFile "manifest.json")
          env.bucket "application/json" env.isoManifestUpload := by
  cases hstream : env.stream with
  | nil => simp [startRun, hstream] at hr
  | cons first rest =>
    cases hse : env.streamEnd <;> cases htar : env.tar <;>
      cases hca : env.curlArchive <;> cases hcm : env.curlManifest <;>
      by_cases hb : env.bucket = "" <;>
      simp [startRun, hstream, hse, htar, hca, hcm, hb] at hr <;>
      tauto

/-- C8: every upload invocation the run makes is an HTTP PUT of the given
file to `https://<host>/<basename(file)>` carrying exactly the four
headers `Host: <host>`, `Date: <current time in ISO-8601>` (one of the
run's two `new Date().toISOString()` readings), `Content-Type` as given
for that sub-step, and `x-amz-acl: bucket-owner-full-control`. -/
theorem c8_upload_shape (hash : List Nat → List Nat) (env : Env)
    (r : UploadRequest) (hr : r ∈ (startRun hash env).uploads) :
    ∃ ct iso,
      (iso = env.isoArchiveUpload ∨ iso = env.isoManifestUpload) ∧
      (ct = "application/x-compressed-tar" ∨ ct = "application/json") ∧
      r = uploadToBucketRequest r.uploadFile env.bucket ct iso ∧
      r.method = "PUT" ∧
      r.url = "https://" ++ env.bucket ++ "/" ++ r.uploadFile.base ∧
      r.headers = [("Host", env.bucket), ("Date", iso), ("Content-Type", ct),
        ("x-amz-acl", "bucket-owner-full-control")] := by
  rcases startRun_uploads_sub hash env r hr with h | h <;> subst h
  · exact ⟨"application/x-compressed-tar", env.isoArchiveUpload,
      Or.inl rfl, Or.inl rfl, by simp [uploadToBucketRequest], rfl,
      by simp [uploadToBucketRequest], by simp [uploadToBucketRequest]⟩
  · exact ⟨"application/json", env.isoManifestUpload,
      Or.inr rfl, Or.inr rfl, by simp [uploadToBucketRequest], rfl,
      by simp [uploadToBucketRequest], by simp [uploadToBucketRequest]⟩

/-! ### Concrete runs: counterexamples and witnesses -/

/-- A run with a bucket configured whose archive upload exits with the
non-success code 1 and whose other processes exit 0. -/
def c1Env : Env :=
  { stream := [{ start := some 1, stop := some 2 },
      { seq := 1, buffer := some [7] }],
    streamEnd := .completed, exportDir := ["tmp"],
    bucket := "snapshots.example", now := 7, tar := .exited 0,
    tarOutput := [1, 2], readChunks := [[1], [2]],
    isoArchiveUpload := "2022-01-01T00:00:00.000Z",
    isoManifestUpload := "2022-01-01T00:00:01.000Z",
    curlArchive := .exited 1, curlManifest := .exited 0 }

/-- C1 counterexample: the archive upload reports the non-success exit
code 1, yet the manifest is still written, the manifest upload is still
attempted (two uploads in total), and the job reports success — the claim
says none of that may happen. -/
theorem c1_counterexample :
    c1Env.curlArchive = .exited 1 ∧
    (startRun (fun l => l) c1Env).manifestFile ≠ none ∧
    (startRun (fun l => l) c1Env).uploads.length = 2 ∧
    (startRun (fun l => l) c1Env).result = .success := by decide

/-- C1 witness: the amended gating evaluated on `c1Env`. -/
theorem c1_witness :
    (c1Env.stream = ({ start := some 1, stop := some 2 } : StreamMessage) ::
        [{ seq := 1, buffer := some [7] }] ∧
      c1Env.streamEnd = .completed ∧
      c1Env.tar = .exited 0 ∧
      c1Env.bucket ≠ "") ∧
    ((startRun (fun l => l) c1Env).manifestFile = none ↔
      c1Env.curlArchive = .errored) ∧
    ((startRun (fun l => l) c1Env).uploads.length = 1 ↔
      c1Env.curlArchive = .errored) ∧
    ((startRun (fun l => l) c1Env).uploads.length = 2 ↔
      c1Env.curlArchive ≠ .errored) ∧
    (c1Env.curlArchive = .errored →
      (startRun (fun l => l) c1Env).result = .failed .archiveUpload) :=
  ⟨⟨rfl, rfl, rfl, by decide⟩,
   c1_manifest_gating (fun l => l) c1Env _ _ 0 rfl rfl rfl (by decide)⟩

/-- A run with a bucket configured whose compression process exits with
the nonzero code 2; the uploads exit 0. -/
def c2Env : Env :=
  { stream := [{ start := some 1, stop := some 2 },
      { seq := 1, buffer := some [7] }],
    streamEnd := .completed, exportDir := ["tmp"],
    bucket := "snapshots.example", now := 7, tar := .exited 2,
    tarOutput := [1, 2], readChunks := [[1], [2]],
    isoArchiveUpload := "2022-01-01T00:00:00.000Z",
    isoManifestUpload := "2022-01-01T00:00:01.000Z",
    curlArchive := .exited 0, curlManifest := .exited 0 }

/-- The same run but with the compression process failing to spawn. -/
def c2ErrEnv : Env :=
  { stream := [{ start := some 1, stop := some 2 },
      { seq := 1, buffer := some [7] }],
    streamEnd := .completed, exportDir := ["tmp"],
    bucket := "snapshots.example", now := 7, tar := .errored,
    tarOutput := [1, 2], readChunks := [[1], [2]],
    isoArchiveUpload := "2022-01-01T00:00:00.000Z",
    isoManifestUpload := "2022-01-01T00:00:01.000Z",
    curlArchive := .exited 0, curlManifest := .exited 0 }

/-- C2 counterexample: the compression process exits with the nonzero
code 2, yet the digest is computed, uploads occur, and the job reports
success — the claim says the whole job must fail with no digest and no
upload. -/
theorem c2_counterexample :
    c2Env.tar = .exited 2 ∧
    (startRun (fun l => l) c2Env).digest ≠ none ∧
    (startRun (fun l => l) c2Env).uploads ≠ [] ∧
    (startRun (fun l => l) c2Env).result = .success := by decide

/-- C2 witness: the amended gating evaluated on the spawn-error run. -/
theorem c2_witness :
    (c2ErrEnv.stream = ({ start := some 1, stop := some 2 } : StreamMessage) ::
        [{ seq := 1, buffer := some [7] }] ∧
      c2ErrEnv.streamEnd = .completed) ∧
    ((startRun (fun l => l) c2ErrEnv).digest = none ↔
      c2ErrEnv.tar = .errored) ∧
    (c2ErrEnv.tar = .errored →
      (startRun (fun l => l) c2ErrEnv).uploads = [] ∧
      (startRun (fun l => l) c2ErrEnv).manifestFile = none ∧
      (startRun (fun l => l) c2ErrEnv).result = .failed .archive) :=
  ⟨⟨rfl, rfl⟩, c2_spawn_error_gating (fun l => l) c2ErrEnv _ _ rfl rfl⟩

/-- A run whose stream connection closes after one delivered record,
before any record with the `stop` sequence 5 arrived. -/
def c3Env : Env :=
  { stream := [{ start := some 1, stop := some 5 },
      { seq := 1, buffer := some [7] }],
    streamEnd := .connectionClosed, exportDir := ["tmp"],
    bucket := "snapshots.example", now := 7, tar := .exited 0,
    tarOutput := [1, 2], readChunks := [[1], [2]],
    isoArchiveUpload := "2022-01-01T00:00:00.000Z",
    isoManifestUpload := "2022-01-01T00:00:01.000Z",
    curlArchive := .exited 0, curlManifest := .exited 0 }

/-- C3 witness: the early-close failure evaluated on `c3Env`. -/
theorem c3_witness :
    (c3Env.stream = ({ start := some 1, stop := some 5 } : StreamMessage) ::
        [{ seq := 1, buffer := some [7] }] ∧
      c3Env.streamEnd = .connectionClosed ∧
      (∀ m ∈ [({ seq := 1, buffer := some [7] } : StreamMessage)],
        some ((m.seq : Nat) : Int) ≠
          ({ start := some 1, stop := some 5 } : StreamMessage).stop)) ∧
    ((startRun (fun l => l) c3Env).result = .failed .stream ∧
      (startRun (fun l => l) c3Env).tarInvoked = false ∧
      (startRun (fun l => l) c3Env).digest = none ∧
      (startRun (fun l => l) c3Env).uploads = []) :=
  ⟨⟨rfl, rfl, by decide⟩,
   c3_early_close_fails (fun l => l) c3Env _ _ rfl rfl (by decide)⟩

/-- A successful run with bounds `(1, 2)` that delivers one record with
the out-of-bounds sequence 5 and a non-empty payload. -/
def c4Env : Env :=
  { stream := [{ start := some 1, stop := some 2 },
      { seq := 5, buffer := some [1] }],
    streamEnd := .completed, exportDir := ["tmp"], bucket := "",
    now := 7, tar := .exited 0, tarOutput := [1], readChunks := [[1]],
    isoArchiveUpload := "2022-01-01T00:00:00.000Z",
    isoManifestUpload := "2022-01-01T00:00:01.000Z",
    curlArchive := .exited 0, curlManifest := .exited 0 }

/-- C4 counterexample: after a successful run with bounds `(1, 2)`, the
blocks directory contains a file named `5` — a delivered record whose
sequence lies outside `[1, 2]` did produce a file, which the claim says
cannot happen. -/
theorem c4_counterexample :
    (startRun (fun l => l) c4Env).result = .success ∧
    (startRun (fun l => l) c4Env).rangeStart = some (some 1) ∧
    (startRun (fun l => l) c4Env).rangeEnd = some (some 2) ∧
    dirContents (startRun (fun l => l) c4Env).blockWrites 5 = some [1] ∧
    ¬((1 : Int) ≤ 5 ∧ (5 : Int) ≤ 2) := by decide

/-- C4 witness: the amended characterisation evaluated on `c4Env` at
sequence 5. -/
theorem c4_witness :
    (c4Env.stream = ({ start := some 1, stop := some 2 } : StreamMessage) ::
        [{ seq := 5, buffer := some [1] }] ∧
      (startRun (fun l => l) c4Env).result = .success) ∧
    (dirContents (startRun (fun l => l) c4Env).blockWrites 5 ≠ none ↔
      ∃ m ∈ [({ seq := 5, buffer := some [1] } : StreamMessage)],
        m.seq = 5 ∧ (∃ b, m.buffer = some b ∧ b ≠ []) ∧ 5 ≠ 0) :=
  ⟨⟨rfl, by decide⟩,
   c4_no_bounds_filter (fun l => l) c4Env _ _ 5 rfl (by decide)⟩

/-- A bucketless run delivering one writable record, one record with
sequence 0, one with an absent payload and one with an empty payload. -/
def c5Env : Env :=
  { stream := [{ start := some 3, stop := some 4 },
      { seq := 3, buffer := some [1, 2] },
      { seq := 0, buffer := some [9] },
      { seq := 4, buffer := none },
      { seq := 4, buffer := some [] }],
    streamEnd := .completed, exportDir := ["tmp"], bucket := "",
    now := 7, tar := .exited 0, tarOutput := [1], readChunks := [[1]],
    isoArchiveUpload := "2022-01-01T00:00:00.000Z",
    isoManifestUpload := "2022-01-01T00:00:01.000Z",
    curlArchive := .exited 0, curlManifest := .exited 0 }

/-- C5 witness: the write guard evaluated on `c5Env` at `s = 3`,
`b = [1, 2]`. -/
theorem c5_witness :
    (c5Env.stream = ({ start := some 3, stop := some 4 } : StreamMessage) ::
        [{ seq := 3, buffer := some [1, 2] }, { seq := 0, buffer := some [9] },
         { seq := 4, buffer := none }, { seq := 4, buffer := some [] }]) ∧
    (((3, [1, 2]) ∈ (startRun (fun l => l) c5Env).blockWrites ↔
      ∃ m ∈ [({ seq := 3, buffer := some [1, 2] } : StreamMessage),
          { seq := 0, buffer := some [9] }, { seq := 4, buffer := none },
          { seq := 4, buffer := some [] }],
        m.seq = 3 ∧ m.buffer = some [1, 2] ∧ ([1, 2] : List Nat) ≠ [] ∧
          (3 : Nat) ≠ 0) ∧
     (startRun (fun l => l) c5Env).progressUpdates =
       (startRun (fun l => l) c5Env).blockWrites.map Prod.fst) :=
  ⟨rfl, c5_write_guard (fun l => l) c5Env _ _ 3 [1, 2] rfl⟩

/-- A small completed run used to evaluate the single-stream claim. -/
def c6Env : Env :=
  { stream := [{ start := some 10, stop := some 12 },
      { seq := 10, buffer := some [65] }, { seq := 11, buffer := some [66] },
      { seq := 12, buffer := some [67] }],
    streamEnd := .completed, exportDir := ["tmp"], bucket := "",
    now := 7, tar := .exited 0, tarOutput := [1], readChunks := [[1]],
    isoArchiveUpload := "2022-01-01T00:00:00.000Z",
    isoManifestUpload := "2022-01-01T00:00:01.000Z",
    curlArchive := .exited 0, curlManifest := .exited 0 }

/-- C6 witness: the single-stream consumption evaluated on `c6Env`. -/
theorem c6_witness :
    (c6Env.stream = ({ start := some 10, stop := some 12 } : StreamMessage) ::
        [{ seq := 10, buffer := some [65] }, { seq := 11, buffer := some [66] },
         { seq := 12, buffer := some [67] }]) ∧
    ((startRun (fun l => l) c6Env).consumed =
        [{ seq := 10, buffer := some [65] }, { seq := 11, buffer := some [66] },
         { seq := 12, buffer := some [67] }] ∧
      (startRun (fun l => l) c6Env).rangeStart = some (some 10) ∧
      (startRun (fun l => l) c6Env).rangeEnd = some (some 12)) :=
  ⟨rfl, c6_single_stream (fun l => l) c6Env _ _ rfl⟩

/-- A fully successful run with a bucket configured, used to evaluate the
manifest-field claim. -/
def c7Env : Env :=
  { stream := [{ start := some 10, stop := some 12 },
      { seq := 10, buffer := some [65] }],
    streamEnd := .completed, exportDir := ["tmp"],
    bucket := "snapshots.example", now := 7, tar := .exited 0,
    tarOutput := [1, 2, 3], readChunks := [[1], [2, 3]],
    isoArchiveUpload := "2022-01-01T00:00:00.000Z",
    isoManifestUpload := "2022-01-01T00:00:01.000Z",
    curlArchive := .exited 0, curlManifest := .exited 0 }

/-- The manifest `c7Env`'s run produces. -/
def c7Manifest : Manifest :=
  { block_height := some 12, checksum := toHexLower [1, 2, 3],
    file_name := "ironfish_snapshot_7.tar.gz", file_size := 3,
    timestamp := 7 }

/-- C7 witness: the manifest-field equalities evaluated on `c7Env`. -/
theorem c7_witness :
    (c7Env.stream = ({ start := some 10, stop := some 12 } : StreamMessage) ::
        [{ seq := 10, buffer := some [65] }] ∧
      c7Env.readChunks.flatten = c7Env.tarOutput ∧
      (startRun (fun l => l) c7Env).manifestFile = some c7Manifest) ∧
    (c7Manifest.block_height =
        ({ start := some 10, stop := some 12 } : StreamMessage).stop ∧
      c7Manifest.file_size = c7Env.tarOutput.length ∧
      c7Manifest.checksum = toHexLower ((fun l => l) c7Env.tarOutput) ∧
      c7Manifest.file_name = (c7Env.exportDir.joinFile
        ("ironfish_snapshot_" ++ toString c7Env.now ++ ".tar.gz")).base) :=
  ⟨⟨rfl, rfl, by decide⟩,
   c7_manifest_fields (fun l => l) c7Env _ _ c7Manifest rfl rfl (by decide)⟩

/-- A fully successful run with a bucket configured, used to evaluate the
upload-request claim. -/
def c8Env : Env :=
  { stream := [{ start := some 10, stop := some 12 },
      { seq := 10, buffer := some [65] }],
    streamEnd := .completed, exportDir := ["tmp"],
    bucket := "snapshots.example", now := 7, tar := .exited 0,
    tarOutput := [1, 2, 3], readChunks := [[1], [2, 3]],
    isoArchiveUpload := "2022-01-01T00:00:00.000Z",
    isoManifestUpload := "2022-01-01T00:00:01.000Z",
    curlArchive := .exited 0, curlManifest := .exited 0 }

/-- The archive upload request `c8Env`'s run issues. -/
def c8Req : UploadRequest :=
  uploadToBucketRequest
    (FsPath.joinFile ["tmp"] "ironfish_snapshot_7.tar.gz")
    "snapshots.example" "application/x-compressed-tar"
    "2022-01-01T00:00:00.000Z"

/-- C8 witness: the request-shape property evaluated on `c8Env`'s archive
upload. -/
theorem c8_witness :
    c8Req ∈ (startRun (fun l => l) c8Env).uploads ∧
    ∃ ct iso,
      (iso = c8Env.isoArchiveUpload ∨ iso = c8Env.isoManifestUpload) ∧
      (ct = "application/x-compressed-tar" ∨ ct = "application/json") ∧
      c8Req = uploadToBucketRequest c8Req.uploadFile c8Env.bucket ct iso ∧
      c8Req.method = "PUT" ∧
      c8Req.url = "https://" ++ c8Env.bucket ++ "/" ++ c8Req.uploadFile.base ∧
      c8Req.headers = [("Host", c8Env.bucket), ("Date", iso),
        ("Content-Type", ct), ("x-amz-acl", "bucket-owner-full-control")] :=
  ⟨by decide, c8_upload_shape (fun l => l) c8Env c8Req (by decide)⟩

/-- A completed run with no bucket configured. -/
def c9Env : Env :=
  { stream := [{ start := some 10, stop := some 12 },
      { seq := 10, buffer := some [65] }],
    streamEnd := .completed, exportDir := ["tmp"], bucket := "",
    now := 7, tar := .exited 0, tarOutput := [1, 2, 3],
    readChunks := [[1], [2, 3]],
    isoArchiveUpload := "2022-01-01T00:00:00.000Z",
    isoManifestUpload := "2022-01-01T00:00:01.000Z",
    curlArchive := .exited 0, curlManifest := .exited 0 }

/-- C9 witness: the bucketless behaviour evaluated on `c9Env`. -/
theorem c9_witness :
    (c9Env.stream = ({ start := some 10, stop := some 12 } : StreamMessage) ::
        [{ seq := 10, buffer := some [65] }] ∧
      c9Env.streamEnd = .completed ∧
      c9Env.tar = .exited 0 ∧
      c9Env.bucket = "") ∧
    ((startRun (fun l => l) c9Env).uploads = [] ∧
      (startRun (fun l => l) c9Env).manifestFile = none ∧
      (startRun (fun l => l) c9Env).digest ≠ none ∧
      (startRun (fun l => l) c9Env).result = .success) :=
  ⟨⟨rfl, rfl, rfl, rfl⟩,
   c9_no_bucket (fun l => l) c9Env _ _ 0 rfl rfl rfl rfl⟩

/-- A fully successful run with a bucket configured, used to evaluate the
timestamp claim. -/
def c10Env : Env :=
  { stream := [{ start := some 10, stop := some 12 },
      { seq := 10, buffer := some [65] }],
    streamEnd := .completed, exportDir := ["tmp"],
    bucket := "snapshots.example", now := 7, tar := .exited 0,
    tarOutput := [1, 2, 3], readChunks := [[1], [2, 3]],
    isoArchiveUpload := "2022-01-01T00:00:00.000Z",
    isoManifestUpload := "2022-01-01T00:00:01.000Z",
    curlArchive := .exited 0, curlManifest := .exited 0 }

/-- The manifest `c10Env`'s run produces. -/
def c10Manifest : Manifest :=
  { block_height := some 12, checksum := toHexLower [1, 2, 3],
    file_name := "ironfish_snapshot_7.tar.gz", file_size := 3,
    timestamp := 7 }

/-- C10 witness: the timestamp-in-name equalities evaluated on `c10Env`. -/
theorem c10_witness :
    (c10Env.stream = ({ start := some 10, stop := some 12 } : StreamMessage) ::
        [{ seq := 10, buffer := some [65] }] ∧
      (startRun (fun l => l) c10Env).manifestFile = some c10Manifest) ∧
    (c10Manifest.timestamp = c10Env.now ∧
      c10Manifest.file_name =
        "ironfish_snapshot_" ++ toString c10Manifest.timestamp ++ ".tar.gz") :=
  ⟨⟨rfl, by decide⟩,
   c10_timestamp_in_name (fun l => l) c10Env _ _ c10Manifest rfl (by decide)⟩
